import Mathlib

/-!
Shallow embedding of `src/tts_kali.py` (a clipboard-to-speech CLI utility).

External effects (the clipboard library, the `xclip`/`xsel` fallback tools,
the `espeak` engine, and the interactive confirmation prompt) are modelled as
explicit parameters describing what each external call would return, so every
function of the program becomes a pure Lean function of the program inputs
and of that environment.
-/

namespace TTSKali

/-- The whitespace characters recognised by Python's `str.strip()` /
`str.split()` (ASCII range; the program only ever strips shell output). -/
def isPySpace (c : Char) : Bool :=
  c = ' ' || c = '\t' || c = '\n' || c = '\r' || c = '\x0b' || c = '\x0c'

/-- Model of `str.strip()` on the underlying character list: drop whitespace
from the front, then from the back. -/
def stripChars (l : List Char) : List Char :=
  List.rdropWhile isPySpace (l.dropWhile isPySpace)

/-- Python's `s.strip()`. -/
def pyStrip (s : String) : String :=
  String.mk (stripChars s.data)

/-- Split a character list at every character satisfying `p`, keeping empty
segments — the segment structure of Python's `str.split` with an explicit
separator. -/
def splitChars (p : Char → Bool) : List Char → List (List Char)
  | [] => [[]]
  | c :: rest =>
    let r := splitChars p rest
    if p c then [] :: r
    else
      match r with
      | [] => [[c]]
      | x :: xs => (c :: x) :: xs

/-- Python's `s.split()` (no separator): split on whitespace runs, discarding
empty pieces. -/
def pySplitWs (s : String) : List String :=
  ((splitChars isPySpace s.data).filter (fun w => w ≠ [])).map String.mk

/-- Python's `s.split(sep)` for the newline separator, as used on the voice
table. -/
def pySplitLines (s : String) : List String :=
  (splitChars (fun c => c = '\n') s.data).map String.mk

/-- Python's `s.lower()`. -/
def pyLower (s : String) : String :=
  String.mk (s.data.map Char.toLower)

/-- Result of a completed `subprocess.run` call (no `check=True`):
exit status and captured standard output. -/
structure CmdResult where
  returncode : Int
  stdout : String
deriving DecidableEq

/-- Outcome of attempting to launch one of the fallback clipboard tools:
either the executable is missing (`FileNotFoundError`) or it ran. -/
inductive RunOutcome
  | notFound
  | ran (r : CmdResult)
deriving DecidableEq

/-- Outcome of `pyperclip.paste()`: a string, or an exception. -/
inductive PasteOutcome
  | ok (text : String)
  | exn (msg : String)
deriving DecidableEq

/-- The fallback commands of `KaliTTS._fallback_get_text`, in source order:
xclip primary selection, xclip clipboard, xsel primary. -/
def fallbackMethods : List (List String) :=
  [["xclip", "-o", "-selection", "primary"],
   ["xclip", "-o"],
   ["xsel", "-o", "--primary"]]

/-- The loop body of `_fallback_get_text`: walk the method list; a missing
tool is skipped, and the first run with exit status 0 and non-empty stripped
stdout supplies the text (stripped). -/
def tryFallbacks (run : List String → RunOutcome) : List (List String) → Option String
  | [] => none
  | cmd :: rest =>
    match run cmd with
    | RunOutcome.notFound => tryFallbacks run rest
    | RunOutcome.ran r =>
      if r.returncode = 0 ∧ pyStrip r.stdout ≠ "" then some (pyStrip r.stdout)
      else tryFallbacks run rest

/-- Model of `KaliTTS._fallback_get_text`. -/
def fallback_get_text (run : List String → RunOutcome) : Option String :=
  tryFallbacks run fallbackMethods

/-- Model of `KaliTTS.get_selected_text`: read the clipboard via pyperclip; an empty or
whitespace-only string yields `None`; the fallback chain is consulted only
when `pyperclip.paste()` raises. -/
def get_selected_text (paste : PasteOutcome) (run : List String → RunOutcome) :
    Option String :=
  match paste with
  | PasteOutcome.ok text =>
      if text = "" ∨ pyStrip text = "" then none else some (pyStrip text)
  | PasteOutcome.exn _ => fallback_get_text run

/-- The keyword arguments of `KaliTTS.text_to_speech`, with the source's
defaults. -/
structure TTSKwargs where
  voice : String := "ru"
  speed : Int := 160
  pitch : Int := 50
  amplitude : Int := 100
  output : Option String := none

/-- Python's `list.insert(-1, x)`: insert `x` just before the last element. -/
def insertBeforeLast (x : String) : List String → List String
  | [] => [x]
  | [a] => [x, a]
  | a :: b :: rest => a :: insertBeforeLast x (b :: rest)

/-- The espeak argument list built by `KaliTTS.text_to_speech`: voice, speed,
pitch, amplitude, the end-of-options marker `--`, and the text last; the
insertion of `-w` and the path before the last element is guarded by the
Python truthiness check `if output_file:`, which is false both for `None`
and for the empty string. -/
def buildCmd (text : String) (k : TTSKwargs) : List String :=
  let cmd := ["espeak", "-v", k.voice, "-s", toString k.speed,
              "-p", toString k.pitch, "-a", toString k.amplitude, "--", text]
  match k.output with
  | none => cmd
  | some f =>
    if f ≠ "" then insertBeforeLast f (insertBeforeLast "-w" cmd) else cmd

/-- Outcome of launching the espeak engine subprocess: the executable is
missing (raises `FileNotFoundError`), or it ran and exited with a code. -/
inductive EngineOutcome
  | launchFail
  | exited (code : Int)
deriving DecidableEq

/-- Model of `KaliTTS.text_to_speech`: run espeak with `check=True`; exit 0 returns
`True`, a non-zero exit raises `CalledProcessError` which is caught and
returns `False`; any other exception (a launch failure) is NOT caught and
propagates (modelled as `Except.error`). -/
def text_to_speech (engine : List String → EngineOutcome) (text : String)
    (k : TTSKwargs) : Except String Bool :=
  match engine (buildCmd text k) with
  | EngineOutcome.exited c => if c = 0 then Except.ok true else Except.ok false
  | EngineOutcome.launchFail => Except.error "FileNotFoundError"

/-- The hardcoded voice list returned by `get_available_voices` on failure. -/
def FALLBACK_VOICES : List String := ["ru", "en", "de", "fr", "es"]

/-- The parsing loop of `get_available_voices`: for each line after the
header, `parts = line.split()`; an empty `parts` is skipped; a one-element
`parts` makes `parts[1]` raise `IndexError` (whole parse fails, `none`);
otherwise `parts[1]` is collected in order. -/
def collectVoices : List String → Option (List String)
  | [] => some []
  | line :: rest =>
    match pySplitWs line with
    | [] => collectVoices rest
    | [_] => none
    | _ :: second :: _ => (collectVoices rest).map (fun vs => second :: vs)

/-- The line list `result.stdout.strip().split(newline)[1:]` fed to the
parsing loop. -/
def parseVoices (stdout : String) : Option (List String) :=
  collectVoices ((pySplitLines (pyStrip stdout)).drop 1)

/-- Strict code-point comparison of characters, Python's ordering on
single characters. -/
def charLt (a b : Char) : Bool :=
  decide (a.toNat < b.toNat)

/-- Lexicographic code-point comparison of character lists, Python's
ordering on strings. -/
def lexLe : List Char → List Char → Bool
  | [], _ => true
  | _ :: _, [] => false
  | a :: as, b :: bs => charLt a b || (decide (a = b) && lexLe as bs)

/-- Python's `<=` on strings: lexicographic by code point. -/
def pyStrLe (a b : String) : Prop :=
  lexLe a.data b.data = true

instance instPyStrLeDecidable : DecidableRel pyStrLe :=
  fun a b => inferInstanceAs (Decidable (lexLe a.data b.data = true))

instance instPyStrLeTotal : IsTotal String pyStrLe where
  total a b := by
    suffices h : ∀ x y : List Char, lexLe x y = true ∨ lexLe y x = true from
      h a.data b.data
    intro x
    induction x with
    | nil => intro y; left; rfl
    | cons c cs ih =>
      intro y
      cases y with
      | nil => right; rfl
      | cons d ds =>
        by_cases hcd : c = d
        · subst hcd
          rcases ih ds with h | h
          · left; simp [lexLe, h]
          · right; simp [lexLe, h]
        · rcases Nat.lt_trichotomy c.toNat d.toNat with h | h | h
          · left; simp [lexLe, charLt, h]
          · exact absurd (Char.ext (UInt32.ext h)) hcd
          · right; simp [lexLe, charLt, h]

instance instPyStrLeTrans : IsTrans String pyStrLe where
  trans a b c hab hbc := by
    suffices h : ∀ x y z : List Char,
        lexLe x y = true → lexLe y z = true → lexLe x z = true from
      h a.data b.data c.data hab hbc
    intro x
    induction x with
    | nil => intro y z _ _; rfl
    | cons cx xs ih =>
      intro y z hxy hyz
      cases y with
      | nil => exact absurd hxy (by simp [lexLe])
      | cons cy ys =>
        cases z with
        | nil => exact absurd hyz (by simp [lexLe])
        | cons cz zs =>
          simp only [lexLe, Bool.or_eq_true, Bool.and_eq_true,
            decide_eq_true_eq] at hxy hyz ⊢
          rcases hxy with h1 | ⟨rfl, h1⟩
          · rcases hyz with h2 | ⟨rfl, h2⟩
            · left
              simp only [charLt, decide_eq_true_eq] at h1 h2 ⊢
              omega
            · left; exact h1
          · rcases hyz with h2 | ⟨rfl, h2⟩
            · left; exact h2
            · right; exact ⟨rfl, ih ys zs h1 h2⟩

/-- Python's `sorted(set(l))` for strings: distinct elements in ascending
code-point order. -/
def pySortedSet (l : List String) : List String :=
  List.insertionSort pyStrLe l.dedup

/-- Outcome of the `espeak --voices` call: launch failure or captured
standard output. -/
inductive VoicesOutcome
  | launchFail
  | ran (stdout : String)
deriving DecidableEq

/-- Model of `KaliTTS.get_available_voices`: parse the voice table; a launch failure
or an `IndexError` during parsing is swallowed by the bare `except` and
yields the hardcoded fallback list. -/
def get_available_voices (o : VoicesOutcome) : List String :=
  match o with
  | VoicesOutcome.launchFail => FALLBACK_VOICES
  | VoicesOutcome.ran out =>
    match parseVoices out with
    | some vs => pySortedSet vs
    | none => FALLBACK_VOICES

/-- The parsed command-line arguments (normal mode: `--list-voices` and
`--test` off), with argparse's defaults; `text = none` models an absent
`--text`. -/
structure Args where
  voice : String := "ru"
  speed : Int := 160
  pitch : Int := 50
  amplitude : Int := 100
  output : Option String := none
  text : Option String := none

/-- The external world of one program run: the pyperclip outcome, the
fallback tools, the espeak engine, and the reply typed at the length
confirmation prompt. -/
structure Env where
  paste : PasteOutcome
  run : List String → RunOutcome
  engine : List String → EngineOutcome
  confirm : String

/-- How the process ends: a normal exit with a status code, or an uncaught
exception. -/
inductive ProcOutcome
  | exited (code : Nat)
  | crashed
deriving DecidableEq

/-- Observable result of `main` in normal mode: how the process ended,
the text passed to `text_to_speech` (if it was called at all), whether the
cancellation message was printed, and whether the no-text remediation
guidance was printed. -/
structure MainResult where
  outcome : ProcOutcome
  synthText : Option String
  cancelled : Bool
  guidance : Bool
deriving DecidableEq

/-- The text-acquisition step of `main`: a truthy `--text` is used as-is
(untrimmed); otherwise the clipboard path is taken. -/
def acquireText (env : Env) (args : Args) : Option String :=
  match args.text with
  | some t => if t ≠ "" then some t else get_selected_text env.paste env.run
  | none => get_selected_text env.paste env.run

/-- The kwargs `main` passes to `text_to_speech`. -/
def kwargsOf (args : Args) : TTSKwargs :=
  { voice := args.voice, speed := args.speed, pitch := args.pitch,
    amplitude := args.amplitude, output := args.output }

/-- Model of `main` in normal mode: acquire text (no text: guidance and `sys.exit(1)`);
texts over 1000 characters prompt for confirmation and any reply other than
`y`/`Y` cancels (plain `return`, exit 0); otherwise `text_to_speech` runs and
`main` returns normally whether it reported success or failure — an uncaught
exception inside it crashes the process. -/
def mainNormal (env : Env) (args : Args) : MainResult :=
  match acquireText env args with
  | none =>
    { outcome := ProcOutcome.exited 1, synthText := none,
      cancelled := false, guidance := true }
  | some text =>
    if text.length > 1000 ∧ pyLower env.confirm ≠ "y" then
      { outcome := ProcOutcome.exited 0, synthText := none,
        cancelled := true, guidance := false }
    else
      match text_to_speech env.engine text (kwargsOf args) with
      | Except.ok _ =>
        { outcome := ProcOutcome.exited 0, synthText := some text,
          cancelled := false, guidance := false }
      | Except.error _ =>
        { outcome := ProcOutcome.crashed, synthText := some text,
          cancelled := false, guidance := false }

/-- The value one fallback method would contribute: `some` of the stripped
stdout when the tool ran, exited 0, and printed non-whitespace output,
`none` otherwise. -/
def hitValue (run : List String → RunOutcome) (cmd : List String) : Option String :=
  match run cmd with
  | RunOutcome.notFound => none
  | RunOutcome.ran r =>
    if r.returncode = 0 ∧ pyStrip r.stdout ≠ "" then some (pyStrip r.stdout) else none

/-- A fallback-tool environment where every tool call succeeds and prints
`hello`; used to exhibit that the chain is not consulted on a whitespace
primary read. -/
def runC1 : List String → RunOutcome :=
  fun _ => RunOutcome.ran { returncode := 0, stdout := "hello" }

/-- A fallback-tool environment where the first method fails (exit 1) and
the later ones print text. -/
def runC1w : List String → RunOutcome := fun cmd =>
  if cmd = ["xclip", "-o", "-selection", "primary"] then
    RunOutcome.ran { returncode := 1, stdout := "junk" }
  else RunOutcome.ran { returncode := 0, stdout := " from clipboard " }

/-- An environment whose engine exits 0. -/
def envC2 : Env :=
  { paste := PasteOutcome.ok "", run := fun _ => RunOutcome.notFound,
    engine := fun _ => EngineOutcome.exited 0, confirm := "" }

/-- An environment whose engine exits 1 (synthesis failure). -/
def envC3 : Env :=
  { paste := PasteOutcome.ok "", run := fun _ => RunOutcome.notFound,
    engine := fun _ => EngineOutcome.exited 1, confirm := "" }

/-- An environment whose engine launch raises `FileNotFoundError`. -/
def envC6 : Env :=
  { paste := PasteOutcome.ok "", run := fun _ => RunOutcome.notFound,
    engine := fun _ => EngineOutcome.launchFail, confirm := "" }

/-- An environment with a whitespace-only clipboard and no fallback tools
installed. -/
def envC7 : Env :=
  { paste := PasteOutcome.ok " ", run := fun _ => RunOutcome.notFound,
    engine := fun _ => EngineOutcome.exited 0, confirm := "" }

/-- A 1001-character text, above the confirmation threshold. -/
def longText : String := String.mk (List.replicate 1001 'x')

/-- An environment where the user answers `n` at the confirmation prompt. -/
def envC8 : Env :=
  { paste := PasteOutcome.ok "", run := fun _ => RunOutcome.notFound,
    engine := fun _ => EngineOutcome.exited 0, confirm := "n" }

/-! Helper lemmas about stripping. -/

/-- The first element surviving `dropWhile` fails the predicate. -/
theorem head_dropWhile_false (p : Char → Bool) :
    ∀ (l : List Char) (c : Char), (l.dropWhile p).head? = some c → p c = false := by
  intro l
  induction l with
  | nil => intro c h; simp at h
  | cons a t ih =>
    intro c h
    rw [List.dropWhile_cons] at h
    by_cases hpa : p a
    · exact ih c (by simpa [hpa] using h)
    · rw [Bool.not_eq_true] at hpa
      rw [hpa] at h
      simp at h
      rw [← h]
      exact hpa

/-- A list whose head fails the predicate is unchanged by `dropWhile`. -/
theorem dropWhile_eq_self_of_head (p : Char → Bool) (l : List Char) (c : Char)
    (hh : l.head? = some c) (hc : p c = false) : l.dropWhile p = l := by
  cases l with
  | nil => rfl
  | cons a t =>
    simp only [List.head?_cons, Option.some.injEq] at hh
    rw [List.dropWhile_cons, hh, hc]
    simp

/-- The head of an append is the head of the first part when it is
non-empty. -/
theorem head_append_of_ne_nil (l u : List Char) (h : l ≠ []) :
    (l ++ u).head? = l.head? := by
  cases l with
  | nil => exact absurd rfl h
  | cons a t => rfl

/-- `dropWhile` produces a suffix of its input. -/
theorem dropWhile_is_suffix (p : Char → Bool) :
    ∀ l : List Char, ∃ t, t ++ l.dropWhile p = l := by
  intro l
  induction l with
  | nil => exact ⟨[], rfl⟩
  | cons a t ih =>
    by_cases h : p a
    · obtain ⟨u, hu⟩ := ih
      exact ⟨a :: u, by simp [List.dropWhile_cons, h, hu]⟩
    · exact ⟨[], by simp [List.dropWhile_cons, h]⟩

/-- A stripped character list is a front part of the left-stripped list. -/
theorem stripChars_append (l : List Char) :
    ∃ u, stripChars l ++ u = l.dropWhile isPySpace := by
  obtain ⟨t, ht⟩ := dropWhile_is_suffix isPySpace (l.dropWhile isPySpace).reverse
  refine ⟨t.reverse, ?_⟩
  have := congrArg List.reverse ht
  simpa [stripChars, List.rdropWhile] using this

/-- Left-stripping is idempotent on a stripped character list. -/
theorem dropWhile_stripChars (l : List Char) :
    (stripChars l).dropWhile isPySpace = stripChars l := by
  cases hh : (stripChars l).head? with
  | none =>
    rw [List.head?_eq_none_iff] at hh
    rw [hh]
    rfl
  | some c =>
    obtain ⟨u, hu⟩ := stripChars_append l
    have hne : stripChars l ≠ [] := by
      intro h0
      rw [h0] at hh
      simp at hh
    have hd : (l.dropWhile isPySpace).head? = some c := by
      rw [← hu, head_append_of_ne_nil _ _ hne, hh]
    exact dropWhile_eq_self_of_head isPySpace _ c hh
      (head_dropWhile_false isPySpace l c hd)

/-- Stripping is idempotent (character-list form). -/
theorem stripChars_idem (l : List Char) : stripChars (stripChars l) = stripChars l := by
  show List.rdropWhile isPySpace ((stripChars l).dropWhile isPySpace) = stripChars l
  rw [dropWhile_stripChars]
  exact List.rdropWhile_idempotent isPySpace (l.dropWhile isPySpace)

/-- Stripping is idempotent. -/
theorem pyStrip_idem (s : String) : pyStrip (pyStrip s) = pyStrip s :=
  congrArg String.mk (stripChars_idem s.data)

/-! Helper lemmas about the fallback chain. -/

/-- One step of the fallback loop, phrased through `hitValue`. -/
theorem tryFallbacks_cons (run : List String → RunOutcome) (cmd : List String)
    (rest : List (List String)) :
    tryFallbacks run (cmd :: rest) =
      (match hitValue run cmd with
       | some s => some s
       | none => tryFallbacks run rest) := by
  rw [tryFallbacks, hitValue]
  cases run cmd with
  | notFound => rfl
  | ran r =>
    by_cases hc : r.returncode = 0 ∧ pyStrip r.stdout ≠ ""
    · simp [hc]
    · simp [hc]

/-- When no method hits, the fallback loop returns `none`. -/
theorem tryFallbacks_none (run : List String → RunOutcome) :
    ∀ L : List (List String), (∀ cmd ∈ L, hitValue run cmd = none) →
      tryFallbacks run L = none := by
  intro L
  induction L with
  | nil => intro _; rfl
  | cons cmd rest ih =>
    intro h
    rw [tryFallbacks_cons, h cmd (by simp)]
    exact ih fun c hc => h c (by simp [hc])

/-- Text supplied by a single fallback method is stripped and non-empty. -/
theorem hitValue_stripped (run : List String → RunOutcome) (cmd : List String)
    (v : String) (h : hitValue run cmd = some v) : pyStrip v = v ∧ v ≠ "" := by
  rw [hitValue] at h
  cases hrc : run cmd with
  | notFound => rw [hrc] at h; cases h
  | ran r =>
    rw [hrc] at h
    have h1 : (if r.returncode = 0 ∧ pyStrip r.stdout ≠ ""
        then some (pyStrip r.stdout) else (none : Option String)) = some v := h
    by_cases hc : r.returncode = 0 ∧ pyStrip r.stdout ≠ ""
    · rw [if_pos hc] at h1
      injection h1 with h2
      rw [← h2]
      exact ⟨pyStrip_idem _, hc.2⟩
    · rw [if_neg hc] at h1; cases h1

/-- Any text supplied by the fallback loop is stripped and non-empty. -/
theorem tryFallbacks_stripped (run : List String → RunOutcome) :
    ∀ (L : List (List String)) (s : String), tryFallbacks run L = some s →
      pyStrip s = s ∧ s ≠ "" := by
  intro L
  induction L with
  | nil => intro s h; cases h
  | cons cmd rest ih =>
    intro s h
    rw [tryFallbacks_cons] at h
    cases hv : hitValue run cmd with
    | none => rw [hv] at h; exact ih s h
    | some v =>
      rw [hv] at h
      injection h with h2
      rw [← h2]
      exact hitValue_stripped run cmd v hv

/-- Whatever the output configuration, the constructed command ends with the
text. -/
theorem buildCmd_getLast (text : String) (k : TTSKwargs) :
    (buildCmd text k).getLast? = some text := by
  obtain ⟨v, s, p, a, o⟩ := k
  cases o with
  | none => rfl
  | some f =>
    by_cases hf : f ≠ ""
    · simp only [buildCmd, if_pos hf]
      rfl
    · simp only [buildCmd, if_neg hf]
      rfl

/-! Claim theorems. -/

/-- C1, counterexample: when pyperclip returns a whitespace-only string,
`get_selected_text` returns `None` directly, even though every fallback tool
would have supplied non-empty text — the fallback chain is not attempted, so
its first non-empty result is not used. -/
theorem C1_counterexample :
    get_selected_text (PasteOutcome.ok "   ") runC1 = none ∧
    fallback_get_text runC1 = some "hello" := by decide

/-- C1 (amended): the fallback chain is attempted only when the primary
pyperclip read raises an exception; a whitespace-only primary result yields
`None` with no fallback attempt. On an exception, the chain is tried in
the fixed order xclip-primary, xclip-clipboard, xsel-primary, and the first
method that runs, exits 0 and prints non-whitespace output supplies the
(stripped) text. -/
theorem C1_fallback_order (run : List String → RunOutcome) (t msg : String)
    (hws : pyStrip t = "") :
    get_selected_text (PasteOutcome.ok t) run = none ∧
    get_selected_text (PasteOutcome.exn msg) run =
      (match hitValue run ["xclip", "-o", "-selection", "primary"] with
       | some s => some s
       | none =>
         match hitValue run ["xclip", "-o"] with
         | some s => some s
         | none => hitValue run ["xsel", "-o", "--primary"]) := by
  constructor
  · rw [get_selected_text, if_pos (Or.inr hws)]
  · rw [get_selected_text, fallback_get_text, fallbackMethods]
    rw [tryFallbacks_cons, tryFallbacks_cons, tryFallbacks_cons]
    cases hitValue run ["xclip", "-o", "-selection", "primary"] <;>
      cases hitValue run ["xclip", "-o"] <;>
        cases hitValue run ["xsel", "-o", "--primary"] <;>
          simp [tryFallbacks]

/-- C1 witness: the amended statement at a concrete environment where the
first method fails and the second hits. -/
theorem C1_fallback_order_witness :
    get_selected_text (PasteOutcome.ok " ") runC1w = none ∧
    get_selected_text (PasteOutcome.exn "boom") runC1w =
      (match hitValue runC1w ["xclip", "-o", "-selection", "primary"] with
       | some s => some s
       | none =>
         match hitValue runC1w ["xclip", "-o"] with
         | some s => some s
         | none => hitValue runC1w ["xsel", "-o", "--primary"]) :=
  C1_fallback_order runC1w " " "boom" (by decide)

/-- C2, counterexample: an explicit `--text` value with surrounding
whitespace is passed to `text_to_speech` exactly as given, not trimmed. -/
theorem C2_counterexample :
    (mainNormal envC2 { text := some " padded text " }).synthText =
      some " padded text " ∧
    pyStrip " padded text " ≠ " padded text " := by decide

/-- C2 (amended): for every non-empty explicit `--text` input (of at most
1000 characters, so no confirmation prompt intervenes), `text_to_speech` is
called with exactly that string as given — untrimmed — and that string is
the final positional argument of the constructed engine command. -/
theorem C2_explicit_text_verbatim (env : Env) (args : Args) (t : String)
    (k : TTSKwargs) (ht : args.text = some t) (hne : t ≠ "")
    (hlen : t.length ≤ 1000) :
    (mainNormal env args).synthText = some t ∧
    (buildCmd t k).getLast? = some t := by
  constructor
  · have hacq : acquireText env args = some t := by
      rw [acquireText, ht]
      simp [hne]
    have hgt : ¬(t.length > 1000 ∧ pyLower env.confirm ≠ "y") :=
      fun hcontra => absurd hcontra.1 (by omega)
    simp only [mainNormal, hacq, hgt, if_false]
    cases htts : text_to_speech env.engine t (kwargsOf args) <;> rfl
  · exact buildCmd_getLast t k

/-- C2 witness: the amended statement at a concrete input. -/
theorem C2_explicit_text_verbatim_witness :
    (mainNormal envC2 { text := some "hello" }).synthText = some "hello" ∧
    (buildCmd "hello" { output := some "o.wav" }).getLast? = some "hello" :=
  C2_explicit_text_verbatim envC2 { text := some "hello" } "hello"
    { output := some "o.wav" } rfl (by decide) (by decide)

/-- C3, counterexample: the engine exits 1, `text_to_speech` reports failure,
yet `main` returns normally and the process exit status is 0, not 1. -/
theorem C3_counterexample :
    envC3.engine (buildCmd "hi" (kwargsOf { text := some "hi" })) =
      EngineOutcome.exited 1 ∧
    text_to_speech envC3.engine "hi" (kwargsOf { text := some "hi" }) =
      Except.ok false ∧
    (mainNormal envC3 { text := some "hi" }).outcome = ProcOutcome.exited 0 :=
  ⟨rfl, rfl, rfl⟩

/-- C3 (amended): when the engine subprocess exits with a non-zero status in
normal mode, the failure is reported to the caller (`text_to_speech` returns
`False` and main prints an error message), but the process still exits with
status 0 — `main` just returns. -/
theorem C3_engine_failure_exit_zero (env : Env) (args : Args) (t : String)
    (c : Int) (ht : acquireText env args = some t) (hlen : t.length ≤ 1000)
    (he : env.engine (buildCmd t (kwargsOf args)) = EngineOutcome.exited c)
    (hc : c ≠ 0) :
    text_to_speech env.engine t (kwargsOf args) = Except.ok false ∧
    (mainNormal env args).outcome = ProcOutcome.exited 0 := by
  have htts : text_to_speech env.engine t (kwargsOf args) = Except.ok false := by
    rw [text_to_speech, he]
    simp [hc]
  refine ⟨htts, ?_⟩
  have hgt : ¬(t.length > 1000 ∧ pyLower env.confirm ≠ "y") :=
    fun hcontra => absurd hcontra.1 (by omega)
  simp only [mainNormal, ht, hgt, if_false, htts]

/-- C3 witness: the amended statement at a concrete environment whose engine
exits 1. -/
theorem C3_engine_failure_exit_zero_witness :
    text_to_speech envC3.engine "hi" (kwargsOf { text := some "hi" }) =
      Except.ok false ∧
    (mainNormal envC3 { text := some "hi" }).outcome = ProcOutcome.exited 0 :=
  C3_engine_failure_exit_zero envC3 { text := some "hi" } "hi" 1 (by decide)
    (by decide) rfl (by decide)

/-- C4, counterexample: with the empty output path — which is falsy in
Python, so the `if output_file:` guard skips the insertion — the constructed
command contains no `-w` flag and no path, while the claim asserts the
file-write flag and path are inserted before the text for every given output
path. -/
theorem C4_counterexample :
    buildCmd "hi" { output := some "" } =
      ["espeak", "-v", "ru", "-s", "160", "-p", "50", "-a", "100",
       "--", "hi"] ∧
    "-w" ∉ buildCmd "hi" { output := some "" } := by decide

/-- C4 (amended): for every text, configuration and non-empty output path,
the constructed espeak command has the literal text as its final positional
argument, the end-of-options marker `--` before it, and the file-write flag
`-w` with the path immediately before the text (playback suppressed); an
empty output path is falsy, so the command is then built exactly as when no
output path is given, with no `-w` flag. -/
theorem C4_command_shape (text v f : String) (s p a : Int) (hf : f ≠ "") :
    buildCmd text { voice := v, speed := s, pitch := p, amplitude := a,
                    output := some f } =
      ["espeak", "-v", v, "-s", toString s, "-p", toString p,
       "-a", toString a, "--", "-w", f, text] ∧
    buildCmd text { voice := v, speed := s, pitch := p, amplitude := a,
                    output := some "" } =
      ["espeak", "-v", v, "-s", toString s, "-p", toString p,
       "-a", toString a, "--", text] ∧
    buildCmd text { voice := v, speed := s, pitch := p, amplitude := a,
                    output := none } =
      ["espeak", "-v", v, "-s", toString s, "-p", toString p,
       "-a", toString a, "--", text] := by
  refine ⟨?_, rfl, rfl⟩
  simp only [buildCmd, if_pos hf]
  rfl

/-- C4 witness: the amended statement at a concrete non-empty output path. -/
theorem C4_command_shape_witness :
    buildCmd "T" { voice := "ru", speed := 160, pitch := 50, amplitude := 100,
                   output := some "o.wav" } =
      ["espeak", "-v", "ru", "-s", toString (160 : Int),
       "-p", toString (50 : Int), "-a", toString (100 : Int),
       "--", "-w", "o.wav", "T"] ∧
    buildCmd "T" { voice := "ru", speed := 160, pitch := 50, amplitude := 100,
                   output := some "" } =
      ["espeak", "-v", "ru", "-s", toString (160 : Int),
       "-p", toString (50 : Int), "-a", toString (100 : Int), "--", "T"] ∧
    buildCmd "T" { voice := "ru", speed := 160, pitch := 50, amplitude := 100,
                   output := none } =
      ["espeak", "-v", "ru", "-s", toString (160 : Int),
       "-p", toString (50 : Int), "-a", toString (100 : Int), "--", "T"] :=
  C4_command_shape "T" "ru" "o.wav" 160 50 100 (by decide)

/-- C5, counterexample: when the engine runs but produces empty output
(an "absent engine output"), `get_available_voices` returns the empty list,
not the 5-element fallback list. -/
theorem C5_counterexample :
    get_available_voices (VoicesOutcome.ran "") = [] ∧
    get_available_voices (VoicesOutcome.ran "") ≠ FALLBACK_VOICES := by decide

/-- C5 (amended): on an engine launch failure, or on malformed engine output
(a non-blank voice line whose second whitespace-separated field is missing,
making the parse raise `IndexError`), `get_available_voices` returns the
fixed fallback list `[ru, en, de, fr, es]` without raising; engine output
with no parsable voice line, however, yields a plain empty list. -/
theorem C5_failure_fallback (out : String) (hp : parseVoices out = none) :
    get_available_voices VoicesOutcome.launchFail = FALLBACK_VOICES ∧
    get_available_voices (VoicesOutcome.ran out) = FALLBACK_VOICES := by
  refine ⟨rfl, ?_⟩
  simp only [get_available_voices, hp]

/-- C5 witness: the amended statement at a concrete malformed output whose
second line has a single field. -/
theorem C5_failure_fallback_witness :
    get_available_voices VoicesOutcome.launchFail = FALLBACK_VOICES ∧
    get_available_voices (VoicesOutcome.ran "lang header\nbad") =
      FALLBACK_VOICES :=
  C5_failure_fallback "lang header\nbad" (by decide)

/-- C6, counterexample: a launch failure of the engine subprocess is not
caught by `text_to_speech` (only `CalledProcessError` is): the exception
escapes and crashes the program. -/
theorem C6_counterexample :
    text_to_speech envC6.engine "hi" {} = Except.error "FileNotFoundError" ∧
    (mainNormal envC6 { text := some "hi" }).outcome = ProcOutcome.crashed :=
  ⟨rfl, rfl⟩

/-- C6 (amended): `text_to_speech` catches only the engine's non-zero exit
(`CalledProcessError`), reporting it as the failure value `False`; a launch
failure of the engine subprocess raises an exception that escapes
`text_to_speech` uncaught. -/
theorem C6_only_nonzero_exit_caught (engine : List String → EngineOutcome)
    (text : String) (k : TTSKwargs) :
    (∀ c : Int, engine (buildCmd text k) = EngineOutcome.exited c → c ≠ 0 →
      text_to_speech engine text k = Except.ok false) ∧
    (engine (buildCmd text k) = EngineOutcome.launchFail →
      text_to_speech engine text k = Except.error "FileNotFoundError") := by
  constructor
  · intro c he hc
    rw [text_to_speech, he]
    simp [hc]
  · intro he
    rw [text_to_speech, he]

/-- C6 witness: the amended statement at concrete engines. -/
theorem C6_only_nonzero_exit_caught_witness :
    text_to_speech (fun _ => EngineOutcome.exited 1) "w" {} = Except.ok false ∧
    text_to_speech (fun _ => EngineOutcome.launchFail) "w" {} =
      Except.error "FileNotFoundError" :=
  ⟨(C6_only_nonzero_exit_caught (fun _ => EngineOutcome.exited 1) "w" {}).1 1
      rfl (by decide),
   (C6_only_nonzero_exit_caught (fun _ => EngineOutcome.launchFail) "w" {}).2
      rfl⟩

/-- C7: when no explicit text is given (or it is empty) and every
acquisition mechanism yields empty output — the primary clipboard is
whitespace-only or raises, and no fallback method hits — the program prints
the remediation guidance, exits with status 1, and `text_to_speech` is never
called. -/
theorem C7_no_text_exit_one (env : Env) (args : Args)
    (hargs : args.text = none ∨ args.text = some "")
    (hpaste : ∀ t, env.paste = PasteOutcome.ok t → pyStrip t = "")
    (hfb : ∀ cmd ∈ fallbackMethods, hitValue env.run cmd = none) :
    mainNormal env args =
      { outcome := ProcOutcome.exited 1, synthText := none,
        cancelled := false, guidance := true } := by
  have hsel : get_selected_text env.paste env.run = none := by
    cases hp : env.paste with
    | ok t =>
      have hws := hpaste t hp
      rw [get_selected_text, if_pos (Or.inr hws)]
    | exn m =>
      rw [get_selected_text, fallback_get_text]
      exact tryFallbacks_none env.run fallbackMethods hfb
  have hacq : acquireText env args = none := by
    rcases hargs with h | h
    · rw [acquireText, h]
      exact hsel
    · rw [acquireText, h]
      simpa using hsel
  simp only [mainNormal, hacq]

/-- C7 witness: the statement at a concrete environment with a
whitespace-only clipboard and no fallback tools installed. -/
theorem C7_no_text_exit_one_witness :
    mainNormal envC7 {} =
      { outcome := ProcOutcome.exited 1, synthText := none,
        cancelled := false, guidance := true } :=
  C7_no_text_exit_one envC7 {} (Or.inl rfl)
    (by intro t ht; injection ht with h2; rw [← h2]; decide)
    (fun cmd _ => rfl)

/-- C8: for every acquired input text longer than 1000 characters, if the
confirmation reply does not lower-case to `y`, the program prints the
cancellation message, never calls `text_to_speech`, and exits with
status 0. -/
theorem C8_decline_cancels (env : Env) (args : Args) (t : String)
    (ht : acquireText env args = some t) (hlen : 1000 < t.length)
    (hconf : pyLower env.confirm ≠ "y") :
    mainNormal env args =
      { outcome := ProcOutcome.exited 0, synthText := none,
        cancelled := true, guidance := false } := by
  simp only [mainNormal, ht]
  rw [if_pos ⟨hlen, hconf⟩]

set_option maxRecDepth 8192 in
/-- C8 witness: the statement at a concrete 1001-character text with the
reply `n`. -/
theorem C8_decline_cancels_witness :
    mainNormal envC8 { text := some longText } =
      { outcome := ProcOutcome.exited 0, synthText := none,
        cancelled := true, guidance := false } :=
  C8_decline_cancels envC8 { text := some longText } longText (by decide)
    (by decide) (by decide)

/-- C9: every string returned by text acquisition (`get_selected_text`,
including the fallback chain) equals its own stripped form — it carries no
leading or trailing whitespace — and is non-empty; when no such string can
be produced the function returns `None`. -/
theorem C9_acquired_stripped (paste : PasteOutcome)
    (run : List String → RunOutcome) (s : String)
    (h : get_selected_text paste run = some s) :
    pyStrip s = s ∧ s ≠ "" := by
  cases paste with
  | ok t =>
    rw [get_selected_text] at h
    by_cases hc : t = "" ∨ pyStrip t = ""
    · rw [if_pos hc] at h
      cases h
    · rw [if_neg hc] at h
      injection h with h2
      rw [← h2]
      push_neg at hc
      exact ⟨pyStrip_idem t, hc.2⟩
  | exn m =>
    rw [get_selected_text, fallback_get_text] at h
    exact tryFallbacks_stripped run fallbackMethods s h

/-- C9 witness: the statement at a concrete padded clipboard read. -/
theorem C9_acquired_stripped_witness : pyStrip "hi" = "hi" ∧ "hi" ≠ "" :=
  C9_acquired_stripped (PasteOutcome.ok " hi ") (fun _ => RunOutcome.notFound)
    "hi" (by decide)

/-- C10, counterexample: on the fallback path `get_available_voices` returns
the literal list `[ru, en, de, fr, es]`, which is not sorted in ascending
order. -/
theorem C10_counterexample :
    get_available_voices VoicesOutcome.launchFail =
      ["ru", "en", "de", "fr", "es"] ∧
    ¬ List.Sorted pyStrLe
        (get_available_voices VoicesOutcome.launchFail) := by decide

/-- C10 (amended): on the success path (engine output that parses) the list
returned by `get_available_voices` is sorted in ascending order and contains
no duplicates; the fallback list contains no duplicates but is returned in
its fixed, unsorted order. -/
theorem C10_sorted_nodup (out : String) (vs : List String)
    (hp : parseVoices out = some vs) :
    List.Sorted pyStrLe
      (get_available_voices (VoicesOutcome.ran out)) ∧
    (get_available_voices (VoicesOutcome.ran out)).Nodup ∧
    (get_available_voices VoicesOutcome.launchFail).Nodup := by
  have hgv : get_available_voices (VoicesOutcome.ran out) = pySortedSet vs := by
    simp only [get_available_voices, hp]
  refine ⟨?_, ?_, by decide⟩
  · rw [hgv, pySortedSet]
    exact List.sorted_insertionSort _ _
  · rw [hgv, pySortedSet]
    exact (List.perm_insertionSort _ _).nodup_iff.mpr (List.nodup_dedup vs)

/-- C10 witness: the amended statement at a concrete two-voice engine
output. -/
theorem C10_sorted_nodup_witness :
    List.Sorted pyStrLe
      (get_available_voices (VoicesOutcome.ran "h\n1 ru 3 x\n1 en 3 y")) ∧
    (get_available_voices (VoicesOutcome.ran "h\n1 ru 3 x\n1 en 3 y")).Nodup ∧
    (get_available_voices VoicesOutcome.launchFail).Nodup :=
  C10_sorted_nodup "h\n1 ru 3 x\n1 en 3 y" ["ru", "en"] (by decide)

end TTSKali
